import Mathlib

/-!
Verification development for the `ache-flow-back` repository: a shallow
embedding of the spreadsheet/dataframe ingestion pipeline (`src/ingest.py`),
of the chat command router (`src/command_router.py`) and of the relevant
endpoint logic of `src/main.py`, together with theorems settling the
specification's claims about them.

External collaborators (the Mongo repository, `pandas.to_datetime`, the PDF
extractors, the network fetcher, `dateparser`) are modelled as explicit
oracle parameters; exceptions they may raise are modelled with `Except`.
-/

namespace AcheFlow

/-- Model of the Python cell values the ingestion code manipulates: strings,
integers and booleans.  Floating-point cells are not modelled; a numeric cell
is an `int`. -/
inductive PyVal where
  | str (s : String)
  | int (n : Int)
  | bool (b : Bool)
  deriving Repr, DecidableEq

/-- Python `str(v)` for the modelled values. -/
def pyStr : PyVal → String
  | .str s => s
  | .int n => toString n
  | .bool b => if b then "True" else "False"

/-- Python truthiness of a modelled value. -/
def pyTruthy : PyVal → Bool
  | .str s => s ≠ ""
  | .int n => n ≠ 0
  | .bool b => b

/-- Python truthiness of an optional value (`None` is falsy). -/
def pyTruthyO : Option PyVal → Bool
  | none => false
  | some v => pyTruthy v

/-- Python `str.lower()` for one character, covering ASCII letters and the
uppercase accented letters occurring in this code base's vocabulary. -/
def pyLowerChar (c : Char) : Char :=
  if 'A' ≤ c ∧ c ≤ 'Z' then Char.ofNat (c.toNat + 32)
  else if c = 'Á' then 'á' else if c = 'À' then 'à' else if c = 'Â' then 'â'
  else if c = 'Ã' then 'ã' else if c = 'É' then 'é' else if c = 'Ê' then 'ê'
  else if c = 'Í' then 'í' else if c = 'Ó' then 'ó' else if c = 'Ô' then 'ô'
  else if c = 'Õ' then 'õ' else if c = 'Ú' then 'ú' else if c = 'Ç' then 'ç'
  else c

/-- Python `str.upper()` for one character, same coverage as `pyLowerChar`. -/
def pyUpperChar (c : Char) : Char :=
  if 'a' ≤ c ∧ c ≤ 'z' then Char.ofNat (c.toNat - 32)
  else if c = 'á' then 'Á' else if c = 'à' then 'À' else if c = 'â' then 'Â'
  else if c = 'ã' then 'Ã' else if c = 'é' then 'É' else if c = 'ê' then 'Ê'
  else if c = 'í' then 'Í' else if c = 'ó' then 'Ó' else if c = 'ô' then 'Ô'
  else if c = 'õ' then 'Õ' else if c = 'ú' then 'Ú' else if c = 'ç' then 'Ç'
  else c

/-- Python `str.lower()`. -/
def pyLower (s : String) : String := String.mk (s.data.map pyLowerChar)

/-- Python `str.upper()`. -/
def pyUpper (s : String) : String := String.mk (s.data.map pyUpperChar)

/-- Python's `\s` class (ASCII part). -/
def isPySpace (c : Char) : Bool :=
  c = ' ' || c = '\t' || c = '\n' || c = '\r' || c = '\x0b' || c = '\x0c'

/-- Python `s.strip()` (ASCII whitespace). -/
def pyStrip (s : String) : String :=
  String.mk (((s.data.dropWhile isPySpace).reverse.dropWhile isPySpace).reverse)

/-- Python `s[:n]` for a character count. -/
def strTake (s : String) (n : Nat) : String := String.mk (s.data.take n)

/-- Python `s.endswith(pat)`. -/
def strEndsWith (s pat : String) : Bool := pat.data.isSuffixOf s.data

/-- Python `"\n".join(parts)`. -/
def strJoinNl (parts : List String) : String :=
  String.mk (((parts.map String.data).intersperse ['\n']).flatten)

/-- Python `s.split()` with no separator: split on whitespace runs, dropping
empty pieces. -/
def splitPyWs (s : String) : List String :=
  ((s.data.splitOnP isPySpace).filter (fun l => !l.isEmpty)).map String.mk

/-- Python `pat in hay` on strings: substring occurrence. -/
def containsSub (hay pat : String) : Bool :=
  (List.range (hay.length + 1)).any fun i => pat.toList.isPrefixOf (hay.toList.drop i)

/-- Python `hay.split(pat)[0]`: the text before the first occurrence of `pat`
(`hay` itself when `pat` does not occur). -/
def takeBeforeFirst (hay pat : String) : String :=
  match (List.range (hay.length + 1)).find?
      (fun i => pat.toList.isPrefixOf (hay.toList.drop i)) with
  | some i => String.mk (hay.toList.take i)
  | none => hay

/-- Case-insensitive comparison of two characters (Python `re.IGNORECASE`,
same coverage as `pyLowerChar`). -/
def ciEqChar (a b : Char) : Bool := pyLowerChar a = pyLowerChar b

/-- Strip a literal pattern from the front of the input, case-insensitively;
`some rest` on success. -/
def ciStrip : List Char → List Char → Option (List Char)
  | [], cs => some cs
  | _ :: _, [] => none
  | p :: ps, c :: cs => if ciEqChar p c then ciStrip ps cs else none

/-- Case-insensitive substring occurrence: how a MongoDB
`field.regex(pat, options := i)` lookup behaves for a metacharacter-free
pattern `pat` (the command router only ever passes user-typed names). -/
def ciContainsSub (hay pat : String) : Bool :=
  (List.range (hay.length + 1)).any fun i =>
    (ciStrip pat.toList (hay.toList.drop i)).isSome

/-- Tokens of the small regular-expression dialect covering the command
router's patterns (`re.search`, `IGNORECASE`): literals, optional literals,
optional and capturing alternations, lazy `(.+?)`, greedy `(.+)`, the URL
group `(https?://\S+)`, whitespace runs and the `$` anchor. -/
inductive RTok where
  | lit (s : String)
  | optStr (s : String)
  | optAlt (xs : List String)
  | capAlt (xs : List String)
  | capLazy
  | capGreedy
  | capUrl
  | ws0
  | ws1
  | hws0
  | lineEnd (multiline : Bool)
  deriving Repr, DecidableEq

/-- Backtracking matcher for a token list against the input from the current
position; returns the unconsumed suffix and the capture list.  Greedy and
lazy quantifiers are realised by the order of the candidate split points.
The fuel argument only bounds recursion depth; `toks.length + 1` is always
enough because every recursive call drops the leading token. -/
def matchToks : Nat → List RTok → List Char → List String →
    Option (List Char × List String)
  | _, [], cs, caps => some (cs, caps)
  | 0, _ :: _, _, _ => none
  | fuel + 1, t :: rest, cs, caps =>
    match t with
    | .lit s =>
      match ciStrip s.toList cs with
      | some cs2 => matchToks fuel rest cs2 caps
      | none => none
    | .optStr s =>
      (match ciStrip s.toList cs with
       | some cs2 => matchToks fuel rest cs2 caps
       | none => none).orElse fun _ => matchToks fuel rest cs caps
    | .optAlt xs =>
      (xs.findSome? fun x => (ciStrip x.toList cs).bind fun cs2 =>
        matchToks fuel rest cs2 caps).orElse fun _ => matchToks fuel rest cs caps
    | .capAlt xs =>
      xs.findSome? fun x => (ciStrip x.toList cs).bind fun cs2 =>
        matchToks fuel rest cs2 (caps ++ [String.mk (cs.take x.toList.length)])
    | .capLazy =>
      let run := cs.takeWhile (fun c => c != '\n')
      (List.range run.length).findSome? fun j =>
        matchToks fuel rest (cs.drop (j + 1)) (caps ++ [String.mk (cs.take (j + 1))])
    | .capGreedy =>
      let run := cs.takeWhile (fun c => c != '\n')
      (List.range run.length).findSome? fun j =>
        matchToks fuel rest (cs.drop (run.length - j))
          (caps ++ [String.mk (cs.take (run.length - j))])
    | .capUrl =>
      let tryPre := fun (p : String) =>
        (ciStrip p.toList cs).bind fun cs1 =>
          let run := cs1.takeWhile (fun c => !isPySpace c)
          (List.range run.length).findSome? fun j =>
            matchToks fuel rest (cs1.drop (run.length - j))
              (caps ++ [String.mk (cs.take (p.toList.length + (run.length - j)))])
      (tryPre "https://").orElse fun _ => tryPre "http://"
    | .ws0 =>
      let run := cs.takeWhile isPySpace
      (List.range (run.length + 1)).findSome? fun j =>
        matchToks fuel rest (cs.drop (run.length - j)) caps
    | .ws1 =>
      let run := cs.takeWhile isPySpace
      if run.length = 0 then none
      else (List.range run.length).findSome? fun j =>
        matchToks fuel rest (cs.drop (run.length - j)) caps
    | .hws0 =>
      let run := cs.takeWhile (fun c => isPySpace c && c != '\n' && c != '\r')
      (List.range (run.length + 1)).findSome? fun j =>
        matchToks fuel rest (cs.drop (run.length - j)) caps
    | .lineEnd ml =>
      if cs.isEmpty || (if ml then cs.head? == some '\n' else cs == ['\n']) then
        matchToks fuel rest cs caps
      else none

/-- Python `re.search`: try each start position left to right; on success
return the full matched text (group 0) and the capture list. -/
def reSearch (toks : List RTok) (s : String) : Option (String × List String) :=
  let cs := s.toList
  (List.range (cs.length + 1)).findSome? fun i =>
    let sub := cs.drop i
    (matchToks (toks.length + 1) toks sub []).map fun r =>
      (String.mk (sub.take (sub.length - r.1.length)), r.2)

/-! ## Data model (`src/models.py`) -/

/-- `StatusTarefa` (`src/models.py`). -/
inductive StatusTarefa where
  | emAndamento
  | congelada
  | naoIniciada
  | concluida
  deriving Repr, DecidableEq

/-- `PrioridadeTarefa` (`src/models.py`). -/
inductive PrioridadeTarefa where
  | baixa
  | media
  | alta
  deriving Repr, DecidableEq

/-- `CondicaoTarefa`, the enum `src/ingest.py` imports (values `SEMPRE`, `A`,
`B`, `C` as its row parsing shows); its `models.py` revision is not under
`src/`. -/
inductive CondicaoTarefa where
  | sempre
  | condA
  | condB
  | condC
  deriving Repr, DecidableEq

/-- `StatusTarefa(txt)`: the enum member for a value string, `none` when the
string is no member's value (Python raises `ValueError` there). -/
def statusOfTxt : String → Option StatusTarefa
  | "em andamento" => some .emAndamento
  | "congelada" => some .congelada
  | "não iniciada" => some .naoIniciada
  | "concluída" => some .concluida
  | _ => none

/-- `Funcionario` (`src/models.py`), the fields the routed commands read. -/
structure Funcionario where
  id : Nat
  nome : String
  sobrenome : String
  email : String
  deriving Repr, DecidableEq

/-- `Projeto` (`src/models.py`), the fields the routed commands read; dates
are modelled as epoch-day integers. -/
structure Projeto where
  id : Nat
  nome : String
  prazo : Int
  deriving Repr, DecidableEq

/-- `Tarefa` (`src/models.py`); dates and datetimes are epoch-day /
timestamp integers, links are record ids. -/
structure Tarefa where
  id : Nat
  nome : String
  descricao : Option String := none
  prioridade : PrioridadeTarefa := .media
  status : StatusTarefa := .naoIniciada
  dataCriacao : Int := 0
  dataConclusao : Option Int := none
  prazo : Int
  projetoId : Nat
  responsavelId : Nat
  numero : Option String := none
  classificacao : Option String := none
  fase : Option String := none
  condicao : Option String := none
  documento_referencia : Option String := none
  concluido : Bool := false
  deriving Repr, DecidableEq

/-! ## Date collaborators -/

/-- Days-to-civil-date conversion (proleptic Gregorian, epoch day 0 is
1970-01-01): the calendar arithmetic behind the `date`/`strftime`
collaborators. -/
def civilFromDays (z0 : Int) : Int × Int × Int :=
  let z := z0 + 719468
  let era := z.ediv 146097
  let doe := z - era * 146097
  let yoe := (doe - doe.ediv 1460 + doe.ediv 36524 - doe.ediv 146096).ediv 365
  let y := yoe + era * 400
  let doy := doe - (365 * yoe + yoe.ediv 4 - yoe.ediv 100)
  let mp := (5 * doy + 2).ediv 153
  let d := doy - (153 * mp + 2).ediv 5 + 1
  let m := mp + (if mp < 10 then 3 else -9)
  (y + (if m ≤ 2 then 1 else 0), m, d)

/-- Zero-padding to two digits, as `strftime` prints day and month. -/
def pad2 (n : Int) : String :=
  if 0 ≤ n ∧ n < 10 then "0" ++ toString n else toString n

/-- Python `d.strftime(fmtDayMonthYear)` for an epoch-day date: the format
the command router prints confirmed deadlines with. -/
def fmtDMY (z : Int) : String :=
  match civilFromDays z with
  | (y, m, d) => pad2 d ++ "/" ++ pad2 m ++ "/" ++ toString y

/-- Modelled from the spec: the Date Normalizer collaborator (`dateparser`
inside `_parse_relative_date`, `src/command_router.py`) "converts free-text
date phrases (absolute and relative, multiple languages) into calendar
dates"; per the spec's test property, "amanhã" yields the current date plus
one day.  Only the phrases the settled claims exercise are modelled; every
other phrase is treated as unparseable (`None`). -/
def parseRelativeDate (today : Int) (txt : String) : Option Int :=
  let t := pyLower (pyStrip txt)
  if t = "amanhã" ∨ t = "amanha" then some (today + 1)
  else if t = "hoje" then some today
  else none

/-! ## Command router (`src/command_router.py`) -/

/-- Result of one ingestion item inside a document-link ingestion response
(`item["resultado"]` in `handle_command`). -/
structure ItemRes where
  criados : Nat
  erros : List String
  deriving Repr, DecidableEq

/-- Modelled from the spec: the response shapes of
`ingest_from_doc_link` / `ingest_from_sheet_or_csv_url`, functions this
repository's `src/` snapshot does not contain (only their caller in
`src/command_router.py` is present).  Per the spec they return
`{criados, erros, ...}` or, for a document with several links,
`{itens: [{link, resultado}, ...]}`; the router inspects exactly the fields
modelled here. -/
inductive IngestChatRes where
  | docRes (itens : List ItemRes)
  | flatRes (criados : Nat) (tipo : String) (erros : List String)
  deriving Repr, DecidableEq

/-- `{"executado": ..., "mensagem": ...}` returned by `handle_command`. -/
structure CmdResult where
  executado : Bool
  mensagem : String
  deriving Repr, DecidableEq

/-- The record store plus the external collaborators `handle_command` and the
chat endpoint reach: `saveRaises` models the repository collaborator raising
on the next `save`/`insert` (`none` = saves succeed); `ingestDoc` /
`ingestSheet` stand for the two ingestion entry points the router dispatches
to; `iaText` is the generative-text collaborator (`Except.error` = it
raises). -/
structure DB where
  funcionarios : List Funcionario := []
  projetos : List Projeto := []
  tarefas : List Tarefa := []
  saveRaises : Option String := none
  ingestDoc : String → Except String IngestChatRes := fun _ => .error "ingest"
  ingestSheet : String → Except String IngestChatRes := fun _ => .error "ingest"
  iaText : Except String String := .error "ia"
  nowTs : Int := 0
  nextId : Nat := 0

/-- `_find_project_by_name`: `Projeto.find_one(Projeto.nome.regex(nome, "i"))`,
a case-insensitive substring match on the project name (first stored match). -/
def findProjetoByName (db : DB) (nome : String) : Option Projeto :=
  db.projetos.find? fun p => ciContainsSub p.nome nome

/-- `_find_task_by_name`: case-insensitive substring match on the task name. -/
def findTarefaByName (db : DB) (nome : String) : Option Tarefa :=
  db.tarefas.find? fun t => ciContainsSub t.nome nome

/-- `_find_user_by_name_or_email`: exact e-mail, then first+last name match
when the token has at least two words, then substring on the given name. -/
def findUserByNameOrEmail (db : DB) (token : String) : Option Funcionario :=
  match db.funcionarios.find? fun u => u.email = token with
  | some u => some u
  | none =>
    let parts := splitPyWs (pyStrip token)
    let viaNames :=
      if parts.length ≥ 2 then
        db.funcionarios.find? fun u =>
          ciContainsSub u.nome (parts.headD "") && ciContainsSub u.sobrenome (parts.getLastD "")
      else none
    match viaNames with
    | some u => some u
    | none => db.funcionarios.find? fun u => ciContainsSub u.nome token

/-- `proj.save()`: replace the stored project with the same id; raises when
the repository collaborator does. -/
def saveProjeto (db : DB) (p : Projeto) : Except String DB :=
  match db.saveRaises with
  | some e => .error e
  | none => .ok { db with projetos := db.projetos.map fun q => if q.id = p.id then p else q }

/-- `t.save()`: replace the stored task with the same id. -/
def saveTarefa (db : DB) (t : Tarefa) : Except String DB :=
  match db.saveRaises with
  | some e => .error e
  | none => .ok { db with tarefas := db.tarefas.map fun q => if q.id = t.id then t else q }

/-- `novo.insert()`: append a new task. -/
def insertTarefa (db : DB) (t : Tarefa) : Except String DB :=
  match db.saveRaises with
  | some e => .error e
  | none => .ok { db with tarefas := db.tarefas ++ [t], nextId := db.nextId + 1 }

/-- The alternatives of `insir[ae]|inserir|insere|importa[r]?|ingerir|ingere`
flattened in priority order (the character class and the optional `r` expand
to literal alternatives). -/
def ingestVerbs : List String :=
  ["insira", "insire", "inserir", "insere", "importar", "importa", "ingerir", "ingere"]

/-- The ingestion pattern with the URL on the same line
(`src/command_router.py`, first `re.search` of `handle_command`). -/
def pat0a : List RTok :=
  [.capAlt ingestVerbs, .ws1, .optAlt ["esse", "esta", "este"], .ws0,
   .optAlt ["projeto", "planilha", "tabela"], .ws0, .capUrl]

/-- The ingestion pattern for a verb line without a URL
(`[^\S\r\n]*` then the optional nouns then `\s*$`, `MULTILINE`). -/
def pat0b : List RTok :=
  [.capAlt ingestVerbs, .hws0, .optAlt ["esse", "esta", "este"], .ws0,
   .optAlt ["projeto", "planilha", "tabela"], .ws0, .lineEnd true]

/-- The bare URL pattern `(https?://\S+)`. -/
def patUrl : List RTok := [.capUrl]

/-- Pattern 1: `muda[r]? o prazo do projeto (.+?) para (.+)$`. -/
def pat1 : List RTok :=
  [.lit "muda", .optStr "r", .lit " o prazo do projeto ", .capLazy, .lit " para ",
   .capGreedy, .lineEnd false]

/-- Pattern 2: `muda[r]? o prazo da tarefa (.+?) para (.+)$`. -/
def pat2 : List RTok :=
  [.lit "muda", .optStr "r", .lit " o prazo da tarefa ", .capLazy, .lit " para ",
   .capGreedy, .lineEnd false]

/-- Pattern 3:
`adiciona[r]? a tarefa ['\"]?(.+?)['\"]? no projeto (.+?), (.+?) vai ser a responsável`. -/
def pat3 : List RTok :=
  [.lit "adiciona", .optStr "r", .lit " a tarefa ", .optAlt ["'", "\""], .capLazy,
   .optAlt ["'", "\""], .lit " no projeto ", .capLazy, .lit ", ", .capLazy,
   .lit " vai ser a responsável"]

/-- Pattern 4: `(atribui|muda) (?:a )?tarefa (.+?) para (.+)$`. -/
def pat4 : List RTok :=
  [.capAlt ["atribui", "muda"], .lit " ", .optStr "a ", .lit "tarefa ", .capLazy,
   .lit " para ", .capGreedy, .lineEnd false]

/-- Pattern 5:
`marca[r]? a tarefa (.+?) como (concluída|concluida|em andamento|congelada|não iniciada|nao iniciada)$`. -/
def pat5 : List RTok :=
  [.lit "marca", .optStr "r", .lit " a tarefa ", .capLazy, .lit " como ",
   .capAlt ["concluída", "concluida", "em andamento", "congelada", "não iniciada",
            "nao iniciada"],
   .lineEnd false]

/-- Outcome of the ingestion-command matching preamble of `handle_command`
(its step 0 before any other pattern is tried). -/
inductive Stage0 where
  | url (u : String) (texto : String)
  | groupError
  | fallthru (texto : String)
  deriving Repr, DecidableEq

/-- Step 0 of `handle_command`: search the one-line ingestion pattern; when it
fails, search the verb-line pattern and, if the message holds a URL
elsewhere, rebuild `texto` as `f"{m.group(0)} {m_url.group(1)}"` and search
the one-line pattern again.  When the verb-line pattern matched but no URL
exists, the later `m.group(2)` raises (`pat0b` has a single group): that is
`groupError`.  `fallthru` carries the (possibly rebuilt) `texto` the later
patterns are searched on. -/
def stage0 (texto : String) : Stage0 :=
  match reSearch pat0a texto with
  | some (_, caps) => .url (caps.getD 1 "") texto
  | none =>
    match reSearch pat0b texto with
    | none => .fallthru texto
    | some (g0, _) =>
      match reSearch patUrl texto with
      | none => .groupError
      | some (_, urlcaps) =>
        let texto2 := g0 ++ " " ++ urlcaps.headD ""
        match reSearch pat0a texto2 with
        | some (_, caps) => .url (caps.getD 1 "") texto2
        | none => .fallthru texto2

/-- The summary message the ingestion command prints from the ingestion
result. -/
def ingestMsg : IngestChatRes → String
  | .docRes itens =>
    let total := (itens.map (·.criados)).sum
    let nerr := (itens.map (·.erros.length)).sum
    "Ingestão concluída a partir do documento. Itens criados: " ++ toString total ++
      ". Erros: " ++ toString nerr ++ "."
  | .flatRes criados tipo erros =>
    let msg := "Ingestão concluída (" ++ tipo ++ "). Itens criados: " ++
      toString criados ++ "."
    if erros.isEmpty then msg else msg ++ " Erros: " ++ toString erros.length ++ "."

/-- Command 0 (chat-triggered ingestion), the body of `if m:` in
`handle_command`: dispatch on the URL shape, run the ingestion entry point,
and catch any exception into an `executado=false` result. -/
def runIngestCommand (db : DB) (u : String) : Option CmdResult × DB :=
  let url := pyStrip u
  let res :=
    if containsSub url "docs.google.com/document" ∨
        strEndsWith (pyLower url) ".html" ∨ strEndsWith (pyLower url) ".htm" then
      db.ingestDoc url
    else db.ingestSheet url
  match res with
  | .ok r => (some ⟨true, ingestMsg r⟩, db)
  | .error e => (some ⟨false, "Falha ao ingerir a partir do link: " ++ e⟩, db)

/-- Command 1: change a project's deadline. -/
def cmdPrazoProjeto (today : Int) (db : DB) (g1 g2 : String) :
    Except String (Option CmdResult × DB) :=
  let nome_proj := pyStrip g1
  let prazo_txt := pyStrip g2
  match findProjetoByName db nome_proj with
  | none => .ok (some ⟨false, "Projeto '" ++ nome_proj ++ "' não encontrado."⟩, db)
  | some proj =>
    match parseRelativeDate today prazo_txt with
    | none => .ok (some ⟨false, "Não entendi a data '" ++ prazo_txt ++ "'."⟩, db)
    | some novo =>
      match saveProjeto db { proj with prazo := novo } with
      | .error e => .error e
      | .ok db2 =>
        .ok (some ⟨true, "Prazo do projeto '" ++ proj.nome ++ "' atualizado para " ++
          fmtDMY novo ++ "."⟩, db2)

/-- Command 2: change a task's deadline. -/
def cmdPrazoTarefa (today : Int) (db : DB) (g1 g2 : String) :
    Except String (Option CmdResult × DB) :=
  let nome_t := pyStrip g1
  let prazo_txt := pyStrip g2
  match findTarefaByName db nome_t with
  | none => .ok (some ⟨false, "Tarefa '" ++ nome_t ++ "' não encontrada."⟩, db)
  | some t =>
    match parseRelativeDate today prazo_txt with
    | none => .ok (some ⟨false, "Não entendi a data '" ++ prazo_txt ++ "'."⟩, db)
    | some novo =>
      match saveTarefa db { t with prazo := novo } with
      | .error e => .error e
      | .ok db2 =>
        .ok (some ⟨true, "Prazo da tarefa '" ++ t.nome ++ "' atualizado para " ++
          fmtDMY novo ++ "."⟩, db2)

/-- Command 3: add a task to a project and assign a responsible person. -/
def cmdAdicionaTarefa (today : Int) (db : DB) (g1 g2 g3 : String) :
    Except String (Option CmdResult × DB) :=
  let nome_tarefa := pyStrip g1
  let nome_proj := pyStrip g2
  let nome_resp := pyStrip g3
  match findProjetoByName db nome_proj with
  | none => .ok (some ⟨false, "Projeto '" ++ nome_proj ++ "' não encontrado."⟩, db)
  | some proj =>
    match findUserByNameOrEmail db nome_resp with
    | none => .ok (some ⟨false, "Responsável '" ++ nome_resp ++ "' não encontrado."⟩, db)
    | some user =>
      let novo : Tarefa :=
        { id := db.nextId, nome := nome_tarefa, prazo := today + 7,
          status := .naoIniciada, projetoId := proj.id, responsavelId := user.id,
          dataCriacao := db.nowTs }
      match insertTarefa db novo with
      | .error e => .error e
      | .ok db2 =>
        .ok (some ⟨true, "Tarefa '" ++ nome_tarefa ++ "' criada no projeto '" ++
          proj.nome ++ "' e atribuída a " ++ user.nome ++ " " ++ user.sobrenome ++ "."⟩,
          db2)

/-- Command 4: reassign a task. -/
def cmdAtribuiTarefa (db : DB) (g2 g3 : String) :
    Except String (Option CmdResult × DB) :=
  let nome_t := pyStrip g2
  let nome_resp := pyStrip g3
  match findTarefaByName db nome_t with
  | none => .ok (some ⟨false, "Tarefa '" ++ nome_t ++ "' não encontrada."⟩, db)
  | some t =>
    match findUserByNameOrEmail db nome_resp with
    | none => .ok (some ⟨false, "Responsável '" ++ nome_resp ++ "' não encontrado."⟩, db)
    | some user =>
      match saveTarefa db { t with responsavelId := user.id } with
      | .error e => .error e
      | .ok db2 =>
        .ok (some ⟨true, "Responsável da tarefa '" ++ t.nome ++ "' atualizado para " ++
          user.nome ++ " " ++ user.sobrenome ++ "."⟩, db2)

/-- The status-word normalization of command 5 (`.lower()`, then the two
unaccented spellings mapped to the enum's accented values). -/
def normStatusTxt (g2 : String) : String :=
  let st0 := pyLower g2
  let st1 := if st0 = "concluida" then "concluída" else st0
  if st1 = "nao iniciada" then "não iniciada" else st1

/-- Command 5: change a task's status (`marca a tarefa X como ...`).  Only
`t.status` is assigned before `t.save()`; `StatusTarefa(status_txt)` raising
on a non-member value is the `.error` branch (unreachable for texts produced
by `pat5`). -/
def cmdMarcaTarefa (db : DB) (g1 g2 : String) :
    Except String (Option CmdResult × DB) :=
  let nome_t := pyStrip g1
  let status_txt := normStatusTxt g2
  match findTarefaByName db nome_t with
  | none => .ok (some ⟨false, "Tarefa '" ++ nome_t ++ "' não encontrada."⟩, db)
  | some t =>
    match statusOfTxt status_txt with
    | none => .error ("'" ++ status_txt ++ "' is not a valid StatusTarefa")
    | some st =>
      match saveTarefa db { t with status := st } with
      | .error e => .error e
      | .ok db2 =>
        .ok (some ⟨true, "Tarefa '" ++ t.nome ++ "' marcada como " ++ status_txt ++ "."⟩,
          db2)

/-- `handle_command` (`src/command_router.py`): the ordered pattern cascade.
Returns `.ok (none, db)` when no pattern matched, `.ok (some result, db')`
when a command ran, `.error e` when an exception escaped the router (the
ingestion command is the only branch with its own `try`/`except`). -/
def handleCommand (today : Int) (db : DB) (texto : String) :
    Except String (Option CmdResult × DB) :=
  match stage0 texto with
  | .groupError => .error "no such group"
  | .url u _ => .ok (runIngestCommand db u)
  | .fallthru texto2 =>
    match reSearch pat1 texto2 with
    | some (_, caps) => cmdPrazoProjeto today db (caps.getD 0 "") (caps.getD 1 "")
    | none =>
      match reSearch pat2 texto2 with
      | some (_, caps) => cmdPrazoTarefa today db (caps.getD 0 "") (caps.getD 1 "")
      | none =>
        match reSearch pat3 texto2 with
        | some (_, caps) =>
          cmdAdicionaTarefa today db (caps.getD 0 "") (caps.getD 1 "") (caps.getD 2 "")
        | none =>
          match reSearch pat4 texto2 with
          | some (_, caps) => cmdAtribuiTarefa db (caps.getD 1 "") (caps.getD 2 "")
          | none =>
            match reSearch pat5 texto2 with
            | some (_, caps) => cmdMarcaTarefa db (caps.getD 0 "") (caps.getD 1 "")
            | none => .ok (none, db)

/-- The response of the `/ai/chat` endpoint, as far as the command path is
concerned. -/
structure AIResp where
  tipo_resposta : String
  conteudo_texto : String
  deriving Repr, DecidableEq

/-- `processar_chat_ia` (`src/main.py`): run `handle_command` under
`try`/`except` (an escaped exception becomes an `executado=false` command
result), short-circuit on any command result, otherwise fall through to the
generative-text collaborator, itself under `try`/`except`. -/
def processarChatIA (today : Int) (db : DB) (pergunta : String) : AIResp × DB :=
  match handleCommand today db pergunta with
  | .error e => (⟨"ACOES_FALHOU", "Falha ao processar comando: " ++ e⟩, db)
  | .ok (some r, db2) =>
    (⟨if r.executado then "ACOES" else "ACOES_FALHOU", r.mensagem⟩, db2)
  | .ok (none, db2) =>
    match db2.iaText with
    | .ok s => (⟨"TEXTO", s⟩, db2)
    | .error _ =>
      (⟨"ERRO",
        "Desculpe, tive um problema ao tentar gerar sua resposta. Por favor, tente novamente."⟩,
        db2)

/-- The status-assignment slice of the REST endpoint `atualizar_tarefa`
(`src/main.py`): for an update payload that sets `status`, a new status of
`concluída` first stamps `dataConclusao = date.today()`, then the field is
assigned. -/
def atualizarTarefaSetStatus (today : Int) (t : Tarefa) (novo : StatusTarefa) : Tarefa :=
  let t1 := if novo = .concluida then { t with dataConclusao := some today } else t
  { t1 with status := novo }

/-! ## Ingestion (`src/ingest.py`) -/

/-- Raw document bytes, opaque to the embedding. -/
abbrev Bytes := List Nat

/-- The task record `ingest_xlsx` / `_ingest_tasks_df_from_dataframe` build
and insert (`Tarefa(...)` with the fields those constructors set; the
matching `models.py` revision is not under `src/`, the fields are read off
the constructor calls in `src/ingest.py`). -/
structure TarefaIng where
  nome : String
  projeto : Projeto
  responsavel : Funcionario
  como_fazer : Option PyVal
  prioridade : Option PrioridadeTarefa
  condicao : CondicaoTarefa
  categoria : Option PyVal
  porcentagem : Int
  data_inicio : Option Int
  data_fim : Int
  documento_referencia : Option PyVal
  fase : Option PyVal
  status : StatusTarefa
  dataConclusao : Option Int
  deriving Repr, DecidableEq

/-- The external collaborators the ingestion path reaches, as oracles:
repository lookups and inserts (which may raise: `Except.error`),
`pandas.to_datetime(..., errors="coerce")` (`none` is `NaT`), the network
fetcher, the two PDF text extractors (pdfminer and PyPDF2, the latter as a
page list whose entries may themselves fail or return `None`), and the
`datetime.utcnow()` completion timestamp. -/
structure Oracles where
  findProjeto : String → Except String (Option Projeto)
  findFuncionario : String → Except String (Option Funcionario)
  insert : TarefaIng → Except String Unit
  pdToDatetime : PyVal → Option Int
  fetchBytes : String → Option Bytes
  primExtract : Bytes → Except String String
  secPages : Bytes → Except String (List (Except String (Option String)))
  now : Int

/-- `_normalize_bool` (`src/ingest.py`). -/
def normalizeBool : Option PyVal → Bool
  | some (.bool b) => b
  | none => false
  | some v =>
    ["1", "true", "t", "sim", "yes", "y", "concluida", "concluído", "done"].contains
      (pyLower (pyStrip (pyStr v)))

/-- Python `int(float(s))` on a decimal string literal: optional sign,
digits with an optional fractional part, surrounding whitespace; truncation
toward zero.  Exponent/`inf`/`nan` spellings are not modelled; `none` models
`float(s)` raising. -/
def parsePyFloatTrunc? (s0 : String) : Option Int :=
  let s := (pyStrip s0).data
  let sign : Bool := s.head? == some '-'
  let s1 := if s.head? == some '-' ∨ s.head? == some '+' then s.drop 1 else s
  let intPart := s1.takeWhile Char.isDigit
  let rest := s1.drop intPart.length
  let ok : Bool :=
    match rest with
    | [] => !intPart.isEmpty
    | '.' :: fr => fr.all Char.isDigit && (!intPart.isEmpty || !fr.isEmpty)
    | _ => false
  if ok then
    let n : Nat := intPart.foldl (fun a c => a * 10 + (c.toNat - 48)) 0
    some (if sign then -(n : Int) else (n : Int))
  else none

/-- Python `int(s)` on a string: optional sign and digits only
(`int("3.5")` raises, hence `none`). -/
def parsePyInt? (s0 : String) : Option Int :=
  let s := (pyStrip s0).data
  let sign : Bool := s.head? == some '-'
  let s1 := if s.head? == some '-' ∨ s.head? == some '+' then s.drop 1 else s
  if !s1.isEmpty && s1.all Char.isDigit then
    let n : Nat := s1.foldl (fun a c => a * 10 + (c.toNat - 48)) 0
    some (if sign then -(n : Int) else (n : Int))
  else none

/-- Python `int(float(v))` on a modelled cell value (`none` = it raises). -/
def floatTruncOfPy : PyVal → Option Int
  | .int n => some n
  | .bool b => some (if b then 1 else 0)
  | .str s => parsePyFloatTrunc? s

/-- Python `int(v)` on a modelled cell value (`none` = it raises). -/
def intOfPy : PyVal → Option Int
  | .int n => some n
  | .bool b => some (if b then 1 else 0)
  | .str s => parsePyInt? s

/-- The PyPDF2 fallback of `_extract_pdf_text_from_bytes`: join the
per-page texts (a failing page or a page returning `None` contributes `""`)
and strip; return `""` when opening the reader itself fails. -/
def pyPdfText (o : Oracles) (b : Bytes) : String :=
  match o.secPages b with
  | .error _ => ""
  | .ok pages =>
    pyStrip (strJoinNl (pages.map fun p =>
      match p with
      | .ok (some s) => s
      | .ok none => ""
      | .error _ => ""))

/-- `_extract_pdf_text_from_bytes` (`src/ingest.py`): try pdfminer first and
return its stripped text when non-blank; on pdfminer failure or blank output
fall back to PyPDF2 (`pyPdfText`).  Total: no exception escapes. -/
def extractPdfTextFromBytes (o : Oracles) (b : Bytes) : String :=
  let primary : Option String :=
    match o.primExtract b with
    | .ok txt => if txt ≠ "" ∧ pyStrip txt ≠ "" then some (pyStrip txt) else none
    | .error _ => none
  match primary with
  | some t => t
  | none => pyPdfText o b

/-- `_extract_pdf_text_from_url` (`src/ingest.py`). -/
def extractPdfTextFromUrl (o : Oracles) (u : String) : String :=
  match o.fetchBytes u with
  | none => ""
  | some b => if b.isEmpty then "" else extractPdfTextFromBytes o b

/-- The Google-Sheets URL rewriting inside `_read_tabular_from_url`
(`src/ingest.py` lines 92-95), performed before fetching: a share URL that
does not already carry the export marker is rewritten only when it contains
`/edit`, by replacing everything from `/edit` on with the CSV-export
suffix. -/
def normalizeSheetsUrl (u : String) : String :=
  if containsSub u "docs.google.com/spreadsheets" then
    if containsSub u "export?format=csv" then u
    else if containsSub u "/edit" then takeBeforeFirst u "/edit" ++ "/export?format=csv"
    else u
  else u

/-- One openpyxl worksheet cell: a value and an optional hyperlink target. -/
structure Cell where
  value : Option PyVal := none
  hyperlink : Option String := none
  deriving Repr, DecidableEq

/-- An openpyxl worksheet: the grid of cells (row-major). -/
structure Ws where
  rows : List (List Cell)
  deriving Repr, DecidableEq

/-- `ws.max_row`. -/
def Ws.maxRow (ws : Ws) : Nat := ws.rows.length

/-- `ws.max_column`. -/
def Ws.maxCol (ws : Ws) : Nat := ws.rows.foldr (fun row m => max row.length m) 0

/-- `ws.cell(r, c)` with 1-based indices; out-of-range reads are empty
cells (openpyxl materialises empty cells on access). -/
def Ws.cellAt (ws : Ws) (r c : Nat) : Cell :=
  (((ws.rows.get? (r - 1)).bind (fun row => row.get? (c - 1))).getD {})

/-- One row's non-blankness test, as in `ingest_xlsx`: some cell in columns
`1..max_column` has a value whose `str(v).strip()` is non-empty. -/
def rowNonBlank (ws : Ws) (r : Nat) : Bool :=
  (List.range' 1 ws.maxCol).any fun c =>
    match (ws.cellAt r c).value with
    | some v => pyStrip (pyStr v) ≠ ""
    | none => false

/-- Header discovery in `ingest_xlsx`: the first non-blank row. -/
def headerRowIdx (ws : Ws) : Option Nat :=
  (List.range' 1 ws.maxRow).find? (rowNonBlank ws)

/-- The header name of column `c`: `str(v).strip()` of the header cell, or
`COL_{c}` when the cell is empty. -/
def headerName (ws : Ws) (h c : Nat) : String :=
  match (ws.cellAt h c).value with
  | some v => pyStrip (pyStr v)
  | none => "COL_" ++ toString c

/-- `col_index_map[name]`: the dictionary is filled column by column, so for
a duplicated header name the later column wins. -/
def colFor (ws : Ws) (h : Nat) (name : String) : Option Nat :=
  (List.range' 1 ws.maxCol).foldl
    (fun acc c => if headerName ws h c = name then some c else acc) none

/-- `get_cell(row_idx, *names)`: the cell of the first candidate name that is
a known column. -/
def getCellWs (ws : Ws) (h r : Nat) (names : List String) : Option Cell :=
  names.findSome? fun n => (colFor ws h n).map fun c => ws.cellAt r c

/-- `get_val(row_idx, *names)` (`None` both when no candidate column exists
and when the cell is empty). -/
def getValWs (ws : Ws) (h r : Nat) (names : List String) : Option PyVal :=
  (getCellWs ws h r names).bind (·.value)

/-- `max(0, min(100, porc))`: the completion-percentage clamp. -/
def clamp01 (n : Int) : Int := max 0 (min 100 n)

/-- The status derived from the (already clamped) completion percentage
(`StatusTarefa.NAO_INICIADA if porc == 0 else (CONCLUIDA if porc == 100 else
EM_ANDAMENTO)`). -/
def statusFromPorc (porc : Int) : StatusTarefa :=
  if porc = 0 then .naoIniciada else if porc = 100 then .concluida else .emAndamento

/-- The completion-timestamp stamp: `dataConclusao = utcnow()` exactly when
the freshly built task's status is `concluída`. -/
def stampConclusao (now : Int) (st : StatusTarefa) : Option Int :=
  if st = .concluida then some now else none

/-- The `Prioridade` column parse shared by both ingestion paths. -/
def parsePrioridade : Option PyVal → Option PrioridadeTarefa
  | some (.str s) =>
    let p0 := pyLower (pyStrip s)
    let p := if p0 = "media" then "média" else p0
    if p = "baixa" then some .baixa
    else if p = "média" then some .media
    else if p = "alta" then some .alta
    else none
  | _ => none

/-- The `Condição` column parse shared by both ingestion paths. -/
def parseCondicao : Option PyVal → CondicaoTarefa
  | some (.str s) =>
    let cc := pyUpper (pyStrip s)
    if cc = "SEMPRE" then .sempre
    else if cc = "A" then .condA
    else if cc = "B" then .condB
    else if cc = "C" then .condC
    else .sempre
  | _ => .sempre

/-- The raw percentage before clamping: the `Porcentagem` cell, defaulted
from the `Concluído` flag, pushed through `int(float(·))` with the
`except`-clause fallback to `0`. -/
def porcPre (porcCell concluidoCell : Option PyVal) : Int :=
  let porc0 : PyVal :=
    match porcCell with
    | some v => v
    | none => .int (if normalizeBool concluidoCell then 100 else 0)
  (floatTruncOfPy porc0).getD 0

/-- The end-date resolution chain shared by both ingestion paths: explicit
end date, else legacy deadline, else start date plus offset days (where
`int(exp_dias)` raising is swallowed by `except: pass`).  Returns the
parsed start date and the resolved end date. -/
def resolveDatas (o : Oracles) (dtIni dtFim prazoLegado expDias : Option PyVal) :
    Option Int × Option Int :=
  let dtInicio := dtIni.bind o.pdToDatetime
  let f1 :=
    match dtFim.bind o.pdToDatetime with
    | some d => some d
    | none => prazoLegado.bind o.pdToDatetime
  let f2 :=
    match f1 with
    | some d => some d
    | none =>
      match dtInicio, expDias with
      | some di, some ed =>
        match intOfPy ed with
        | some n => some (di + n)
        | none => none
      | _, _ => none
  (dtInicio, f2)

/-- The `TarefaCreate`/`Tarefa` construction at the end of a successful row
(`src/ingest.py` lines 260-293): status derived from the clamped percentage,
completion timestamp stamped when that status is `concluída`. -/
def buildTarefaIng (now : Int) (nome : String) (projeto : Projeto)
    (resp : Funcionario) (comoFazer : Option PyVal) (prio : Option PrioridadeTarefa)
    (cond : CondicaoTarefa) (cat : Option PyVal) (porc : Int) (dIni : Option Int)
    (dFim : Int) (docref : Option PyVal) (fase : Option PyVal) : TarefaIng :=
  let st := statusFromPorc porc
  { nome := nome, projeto := projeto, responsavel := resp, como_fazer := comoFazer,
    prioridade := prio, condicao := cond, categoria := cat, porcentagem := porc,
    data_inicio := dIni, data_fim := dFim, documento_referencia := docref,
    fase := fase, status := st, dataConclusao := stampConclusao now st }

/-- The `"Linha {r}: {m}"` error-message shape used by every row-level
error. -/
def liMsg (r : Nat) (m : String) : String :=
  "Linha " ++ toString r ++ ": " ++ m

/-- The hyperlink-to-PDF fallback for `como_fazer` (`src/ingest.py` lines
249-258): when the field has no text, PDF use is enabled and the reference
document is a `.pdf` link, the extracted (trimmed, length-capped) text is
assigned — the empty string when both extractors produced nothing. -/
def comoFazerComPdf (o : Oracles) (usarPdf : Bool) (comoFazer : Option String)
    (docref : Option PyVal) : Option String :=
  let temTexto : Bool :=
    match comoFazer with
    | some s => s ≠ "" && pyStrip s ≠ ""
    | none => false
  if !temTexto && usarPdf && pyTruthyO docref &&
      strEndsWith (pyLower (pyStr (docref.getD (.str "")))) ".pdf" then
    let txt := pyStrip (extractPdfTextFromUrl o (pyStr (docref.getD (.str ""))))
    some (if 12000 < txt.length then strTake txt 12000 ++ "\n\n[...]" else txt)
  else comoFazer

/-- Python `(v or None)`: a falsy value collapses to `None`. -/
def pyOrNone (v : Option PyVal) : Option PyVal :=
  if pyTruthyO v then v else none

/-- Outcome of one row's processing: a created (inserted) task, or the
row-level error message already appended to `erros`. -/
inductive RowOut where
  | created (t : TarefaIng)
  | failed (msg : String)
  deriving Repr, DecidableEq

/-- The body of the per-row `try` block of `ingest_xlsx` for worksheet row
`r` (header row `h`): validations append a `Linha r`-prefixed message and
skip the row; repository/insert exceptions surface as `Except.error` (the
surrounding loop catches them). -/
def processRowWs (o : Oracles) (usarPdf : Bool) (ws : Ws) (h r : Nat) :
    Except String RowOut :=
  let vProj := getValWs ws h r ["Nome do Projeto", "Projeto"]
  if !pyTruthyO vProj then
    .ok (.failed (liMsg r "'Nome do Projeto' é obrigatório."))
  else
    let nomeProj := pyStr (vProj.getD (.str ""))
    match o.findProjeto (pyStrip nomeProj) with
    | .error e => .error e
    | .ok none => .ok (.failed (liMsg r ("Projeto '" ++ nomeProj ++ "' não encontrado.")))
    | .ok (some projeto) =>
      let vEmail := getValWs ws h r ["Email Responsável", "Responsável", "Email"]
      if !pyTruthyO vEmail then
        .ok (.failed (liMsg r "'Email Responsável' é obrigatório."))
      else
        let email := pyStr (vEmail.getD (.str ""))
        match o.findFuncionario (pyStrip email) with
        | .error e => .error e
        | .ok none =>
          .ok (.failed (liMsg r ("Responsável '" ++ email ++ "' não encontrado.")))
        | .ok (some responsavel) =>
          let vTar := getValWs ws h r ["Nome da Tarefa", "Tarefa", "Nome"]
          if !pyTruthyO vTar then
            .ok (.failed (liMsg r "'Nome da Tarefa' é obrigatório."))
          else
            let comoFazer : Option String :=
              match getCellWs ws h r ["Como fazer?", "Descrição"] with
              | some c =>
                match c.value with
                | some (.str s) => some (pyStrip s)
                | _ => none
              | none => none
            let categoria := pyOrNone (getValWs ws h r ["Categoria", "Classificação"])
            let fase := pyOrNone (getValWs ws h r ["Fase"])
            let cellDoc := getCellWs ws h r ["Documento de Referência",
              "Documento referência", "Documento"]
            let docRefValue : Option PyVal :=
              match cellDoc with
              | none => none
              | some c =>
                match c.value with
                | some (.str s) => some (.str (pyStrip s))
                | v => v
            let docRefLink : Option String := cellDoc.bind (·.hyperlink)
            let documentoReferencia : Option PyVal :=
              match docRefLink with
              | some l => if l ≠ "" then some (.str l) else docRefValue
              | none => docRefValue
            let prioridade := parsePrioridade (getValWs ws h r ["Prioridade"])
            let cond := parseCondicao (getValWs ws h r ["Condição", "Condicao"])
            let porc := clamp01 (porcPre (getValWs ws h r ["Porcentagem"])
              (getValWs ws h r ["Concluído", "Concluida"]))
            match resolveDatas o (getValWs ws h r ["Data de Início"])
                (getValWs ws h r ["Data de Fim"]) (getValWs ws h r ["Prazo"])
                (getValWs ws h r ["Exportação (dias)"]) with
            | (_, none) =>
              .ok (.failed (liMsg r
                "informe 'Data de Fim' ou 'Prazo' (legado) ou 'Data de Início' + 'Exportação (dias)'."))
            | (dtInicio, some dataFim) =>
              let como2 := comoFazerComPdf o usarPdf comoFazer documentoReferencia
              let tarefa := buildTarefaIng o.now (pyStrip (pyStr (vTar.getD (.str ""))))
                projeto responsavel (como2.map .str) prioridade cond categoria porc
                dtInicio dataFim documentoReferencia fase
              match o.insert tarefa with
              | .error e => .error e
              | .ok _ => .ok (.created tarefa)

/-- Accumulated loop state of an ingestion run: `criadas` and `erros` are
what the returned dictionary is built from; `falhas` (the failing rows'
indices) and `inseridas` (the inserted tasks, in order) are the same fold's
bookkeeping, exposed for the theorems. -/
structure Outc where
  criadas : Nat := 0
  erros : List String := []
  falhas : List Nat := []
  inseridas : List TarefaIng := []
  deriving Repr, DecidableEq

/-- Sequential composition of two loop outcomes. -/
def combineOutc (a b : Outc) : Outc :=
  ⟨a.criadas + b.criadas, a.erros ++ b.erros, a.falhas ++ b.falhas,
    a.inseridas ++ b.inseridas⟩

/-- The row loop of `ingest_xlsx` over the listed worksheet rows: a blank
row is skipped, a row-level failure appends its message, an exception from
the row body is caught and appended as `Linha r: {e}`, a successful row
inserts and counts. -/
def ingestRowsWs (o : Oracles) (usarPdf : Bool) (ws : Ws) (h : Nat) :
    List Nat → Outc
  | [] => {}
  | r :: rest =>
    if rowNonBlank ws r then
      match processRowWs o usarPdf ws h r with
      | .ok (.created t) => combineOutc ⟨1, [], [], [t]⟩ (ingestRowsWs o usarPdf ws h rest)
      | .ok (.failed m) => combineOutc ⟨0, [m], [r], []⟩ (ingestRowsWs o usarPdf ws h rest)
      | .error e =>
        combineOutc ⟨0, [liMsg r e], [r], []⟩ (ingestRowsWs o usarPdf ws h rest)
    else ingestRowsWs o usarPdf ws h rest

/-- A value of the returned result dictionary. -/
inductive RVal where
  | nat (n : Nat)
  | strs (l : List String)
  deriving Repr, DecidableEq

/-- `ingest_xlsx` (`src/ingest.py`): header discovery, the row loop over
rows `header+1 .. max_row`, and the result dictionary — whose keys are
`"criadas"` and `"erros"`. -/
def ingestXlsx (o : Oracles) (usarPdf : Bool) (ws : Ws) : List (String × RVal) :=
  match headerRowIdx ws with
  | none => [("criadas", .nat 0), ("erros", .strs ["Não encontrei cabeçalho na planilha."])]
  | some h =>
    let res := ingestRowsWs o usarPdf ws h (List.range' (h + 1) (ws.maxRow - h))
    [("criadas", .nat res.criadas), ("erros", .strs res.erros)]

/-- One pandas dataframe row: column name to cell, `none` modelling
`NaN`/missing. -/
abbrev DfRow := List (String × Option PyVal)

/-- `get(row, *names)` of `_ingest_tasks_df_from_dataframe`: the first
candidate column present in the row with a non-`NaN` value. -/
def dfGet (row : DfRow) (names : List String) : Option PyVal :=
  names.findSome? fun n =>
    match row.lookup n with
    | some (some v) => some v
    | _ => none

/-- `df.rename(columns=lambda c: str(c).strip())`. -/
def renameStripDf (df : List DfRow) : List DfRow :=
  df.map fun row => row.map fun kv => (pyStrip kv.1, kv.2)

/-- The body of the per-row `try` block of `_ingest_tasks_df_from_dataframe`
for the row at dataframe position `i` (its messages use `Linha {i+2}`).
Unlike the worksheet path there is no hyperlink capture, no string-typing of
`como_fazer`/`categoria`, and no PDF fallback. -/
def processRowDf (o : Oracles) (i : Nat) (row : DfRow) : Except String RowOut :=
  let vProj := dfGet row ["Nome do Projeto", "Projeto"]
  if !pyTruthyO vProj then
    .ok (.failed (liMsg (i + 2) "'Nome do Projeto' é obrigatório."))
  else
    let nomeProj := pyStr (vProj.getD (.str ""))
    match o.findProjeto (pyStrip nomeProj) with
    | .error e => .error e
    | .ok none =>
      .ok (.failed (liMsg (i + 2) ("Projeto '" ++ nomeProj ++ "' não encontrado.")))
    | .ok (some projeto) =>
      let vEmail := dfGet row ["Email Responsável", "Responsável", "Email"]
      if !pyTruthyO vEmail then
        .ok (.failed (liMsg (i + 2) "'Email Responsável' é obrigatório."))
      else
        let email := pyStr (vEmail.getD (.str ""))
        match o.findFuncionario (pyStrip email) with
        | .error e => .error e
        | .ok none =>
          .ok (.failed (liMsg (i + 2) ("Responsável '" ++ email ++ "' não encontrado.")))
        | .ok (some responsavel) =>
          let vTar := dfGet row ["Nome da Tarefa", "Tarefa", "Nome"]
          if !pyTruthyO vTar then
            .ok (.failed (liMsg (i + 2) "'Nome da Tarefa' é obrigatório."))
          else
            let comoFazer := dfGet row ["Como fazer?", "Descrição"]
            let categoria := dfGet row ["Categoria", "Classificação"]
            let fase := dfGet row ["Fase"]
            let documentoReferencia := dfGet row ["Documento de Referência",
              "Documento referência", "Documento"]
            let prioridade := parsePrioridade (dfGet row ["Prioridade"])
            let cond := parseCondicao (dfGet row ["Condição", "Condicao"])
            let porc := clamp01 (porcPre (dfGet row ["Porcentagem"])
              (dfGet row ["Concluído", "Concluida"]))
            match resolveDatas o (dfGet row ["Data de Início"])
                (dfGet row ["Data de Fim"]) (dfGet row ["Prazo"])
                (dfGet row ["Exportação (dias)"]) with
            | (_, none) =>
              .ok (.failed (liMsg (i + 2)
                "informe 'Data de Fim' ou 'Prazo' (legado) ou 'Data de Início' + 'Exportação (dias)'."))
            | (dtInicio, some dataFim) =>
              let tarefa := buildTarefaIng o.now (pyStrip (pyStr (vTar.getD (.str ""))))
                projeto responsavel comoFazer prioridade cond categoria porc
                dtInicio dataFim documentoReferencia fase
              match o.insert tarefa with
              | .error e => .error e
              | .ok _ => .ok (.created tarefa)

/-- The row loop of `_ingest_tasks_df_from_dataframe` over `df.iterrows()`
starting at position `i`: there is no blank-row skip; `falhas` records the
failing rows' dataframe positions. -/
def ingestRowsDf (o : Oracles) : Nat → List DfRow → Outc
  | _, [] => {}
  | i, row :: rest =>
    match processRowDf o i row with
    | .ok (.created t) => combineOutc ⟨1, [], [], [t]⟩ (ingestRowsDf o (i + 1) rest)
    | .ok (.failed m) => combineOutc ⟨0, [m], [i], []⟩ (ingestRowsDf o (i + 1) rest)
    | .error e =>
      combineOutc ⟨0, [liMsg (i + 2) e], [i], []⟩ (ingestRowsDf o (i + 1) rest)

/-- `_ingest_tasks_df_from_dataframe` (`src/ingest.py`): column-name strip,
the row loop, and the result dictionary with keys `"criadas"` and
`"erros"`. -/
def ingestTasksDf (o : Oracles) (df : List DfRow) : List (String × RVal) :=
  let res := ingestRowsDf o 0 (renameStripDf df)
  [("criadas", .nat res.criadas), ("erros", .strs res.erros)]

/-- Modelled from the spec: the completion-percentage *update* operation
("setting a task's percentage to 100 sets status to complete and stamps a
completion time; setting it to 0 sets status to not-started and clears any
completion time; values are clamped into [0,100] before being stored").
The spec's command/endpoint carrying this update is not part of this `src/`
snapshot (the router has no percentage pattern and `TarefaUpdate` no
percentage field); the operation is modelled from the spec's words. -/
def atualizarPorcentagem (now : Int) (t : TarefaIng) (p : Int) : TarefaIng :=
  let porc := clamp01 p
  let st := statusFromPorc porc
  { t with
    porcentagem := porc,
    status := st,
    dataConclusao := (if st = .concluida then some now
      else if st = .naoIniciada then none else t.dataConclusao) }

/-! ## Helper lemmas about the ingestion loops -/

theorem combineOutc_nil_left (a : Outc) : combineOutc {} a = a := by
  cases a
  simp [combineOutc]

theorem combineOutc_assoc (a b c : Outc) :
    combineOutc (combineOutc a b) c = combineOutc a (combineOutc b c) := by
  simp [combineOutc, Nat.add_assoc, List.append_assoc]

theorem ingestRowsWs_append (o : Oracles) (u : Bool) (ws : Ws) (h : Nat)
    (l1 l2 : List Nat) :
    ingestRowsWs o u ws h (l1 ++ l2) =
      combineOutc (ingestRowsWs o u ws h l1) (ingestRowsWs o u ws h l2) := by
  induction l1 with
  | nil => simp [ingestRowsWs, combineOutc_nil_left]
  | cons r rest ih =>
    simp only [List.cons_append, ingestRowsWs, List.append_eq]
    split
    · split <;> rw [ih, combineOutc_assoc]
    · exact ih

theorem ingestRowsDf_append (o : Oracles) (i : Nat) (l1 l2 : List DfRow) :
    ingestRowsDf o i (l1 ++ l2) =
      combineOutc (ingestRowsDf o i l1) (ingestRowsDf o (i + l1.length) l2) := by
  induction l1 generalizing i with
  | nil => simp [ingestRowsDf, combineOutc_nil_left]
  | cons row rest ih =>
    simp only [List.cons_append, ingestRowsDf, List.append_eq]
    have harith : i + 1 + rest.length = i + (rest.length + 1) := by omega
    split <;> rw [ih, combineOutc_assoc] <;> simp [harith, List.length_cons]

theorem ingestRowsWs_count (o : Oracles) (u : Bool) (ws : Ws) (h : Nat)
    (rs : List Nat) :
    (ingestRowsWs o u ws h rs).criadas + (ingestRowsWs o u ws h rs).falhas.length =
      (rs.filter fun r => rowNonBlank ws r).length := by
  induction rs with
  | nil => simp [ingestRowsWs, Outc.criadas, Outc.falhas]
  | cons r rest ih =>
    by_cases hb : rowNonBlank ws r
    · simp only [ingestRowsWs, hb, if_pos]
      split <;> simp_all [combineOutc, List.filter] <;> omega
    · simp_all [ingestRowsWs, List.filter]

theorem ingestRowsDf_count (o : Oracles) (i : Nat) (rows : List DfRow) :
    (ingestRowsDf o i rows).criadas + (ingestRowsDf o i rows).falhas.length =
      rows.length := by
  induction rows generalizing i with
  | nil => simp [ingestRowsDf, Outc.criadas, Outc.falhas]
  | cons row rest ih =>
    have ih1 := ih (i + 1)
    simp only [ingestRowsDf]
    split <;> simp [combineOutc, List.length_cons] <;> omega

theorem processRowWs_failed_shape (o : Oracles) (u : Bool) (ws : Ws) (h r : Nat)
    (m : String) (hm : processRowWs o u ws h r = .ok (.failed m)) :
    ∃ s, m = liMsg r s := by
  unfold processRowWs at hm
  dsimp only at hm
  repeat' split at hm
  all_goals first
    | (injection hm; done)
    | (injection hm with h1; first
        | (injection h1; done)
        | (injection h1 with h2; exact ⟨_, h2.symm⟩))

theorem processRowDf_failed_shape (o : Oracles) (i : Nat) (row : DfRow)
    (m : String) (hm : processRowDf o i row = .ok (.failed m)) :
    ∃ s, m = liMsg (i + 2) s := by
  unfold processRowDf at hm
  dsimp only at hm
  repeat' split at hm
  all_goals first
    | (injection hm; done)
    | (injection hm with h1; first
        | (injection h1; done)
        | (injection h1 with h2; exact ⟨_, h2.symm⟩))

theorem processRowWs_created_porc (o : Oracles) (u : Bool) (ws : Ws) (h r : Nat)
    (t : TarefaIng) (ht : processRowWs o u ws h r = .ok (.created t)) :
    t.porcentagem = clamp01 (porcPre (getValWs ws h r ["Porcentagem"])
        (getValWs ws h r ["Concluído", "Concluida"])) ∧
      t.status = statusFromPorc t.porcentagem ∧
      t.dataConclusao = stampConclusao o.now t.status := by
  unfold processRowWs at ht
  dsimp only at ht
  repeat' split at ht
  all_goals first
    | (injection ht; done)
    | (injection ht with h1; first
        | (injection h1; done)
        | (injection h1 with h2; subst h2; simp [buildTarefaIng]))

theorem processRowDf_created_porc (o : Oracles) (i : Nat) (row : DfRow)
    (t : TarefaIng) (ht : processRowDf o i row = .ok (.created t)) :
    t.porcentagem = clamp01 (porcPre (dfGet row ["Porcentagem"])
        (dfGet row ["Concluído", "Concluida"])) ∧
      t.status = statusFromPorc t.porcentagem ∧
      t.dataConclusao = stampConclusao o.now t.status := by
  unfold processRowDf at ht
  dsimp only at ht
  repeat' split at ht
  all_goals first
    | (injection ht; done)
    | (injection ht with h1; first
        | (injection h1; done)
        | (injection h1 with h2; subst h2; simp [buildTarefaIng]))

theorem clamp01_bounds (n : Int) : 0 ≤ clamp01 n ∧ clamp01 n ≤ 100 := by
  unfold clamp01
  constructor <;> [exact le_max_left 0 _; exact max_le (by omega) (min_le_left _ _)]

theorem statusFromPorc_ite (porc : Int) :
    statusFromPorc porc =
      (if porc = 0 then .naoIniciada else if porc = 100 then .concluida
       else .emAndamento) := rfl

theorem stamp_statusFromPorc (now porc : Int) :
    stampConclusao now (statusFromPorc porc) =
      (if porc = 100 then some now else none) := by
  unfold stampConclusao statusFromPorc
  by_cases h0 : porc = 0 <;> by_cases h100 : porc = 100 <;> simp_all

theorem ingestRowsWs_blank_skip (o : Oracles) (u : Bool) (ws : Ws) (h : Nat)
    (rs1 : List Nat) (r : Nat) (rs2 : List Nat) (hb : rowNonBlank ws r = false) :
    ingestRowsWs o u ws h (rs1 ++ r :: rs2) = ingestRowsWs o u ws h (rs1 ++ rs2) := by
  rw [ingestRowsWs_append, ingestRowsWs_append]
  congr 1
  show ingestRowsWs o u ws h (r :: rs2) = ingestRowsWs o u ws h rs2
  simp [ingestRowsWs, hb]

theorem ingestRowsWs_erros_falhas (o : Oracles) (u : Bool) (ws : Ws) (h : Nat)
    (rs : List Nat) :
    List.Forall₂ (fun m rr => rr ∈ rs ∧ rowNonBlank ws rr = true ∧ ∃ s, m = liMsg rr s)
      (ingestRowsWs o u ws h rs).erros (ingestRowsWs o u ws h rs).falhas := by
  induction rs with
  | nil => simp [ingestRowsWs]
  | cons r rest ih =>
    have ihw : List.Forall₂
        (fun m rr => rr ∈ r :: rest ∧ rowNonBlank ws rr = true ∧ ∃ s, m = liMsg rr s)
        (ingestRowsWs o u ws h rest).erros (ingestRowsWs o u ws h rest).falhas :=
      ih.imp fun _ _ hm => ⟨List.mem_cons_of_mem _ hm.1, hm.2⟩
    by_cases hb : rowNonBlank ws r
    · simp only [ingestRowsWs, hb, if_pos]
      split
      · simpa [combineOutc] using ihw
      next m heq =>
        simp only [combineOutc, List.singleton_append]
        exact List.Forall₂.cons
          ⟨List.mem_cons_self _ _, hb, processRowWs_failed_shape o u ws h r m heq⟩ ihw
      next e heq =>
        simp only [combineOutc, List.singleton_append]
        exact List.Forall₂.cons ⟨List.mem_cons_self _ _, hb, ⟨e, rfl⟩⟩ ihw
    · simp only [ingestRowsWs, hb, if_neg, Bool.false_eq_true, not_false_iff]
      simpa using ihw

theorem ingestRowsDf_erros_falhas (o : Oracles) (rows : List DfRow) (i : Nat) :
    List.Forall₂ (fun m k => i ≤ k ∧ k < i + rows.length ∧ ∃ s, m = liMsg (k + 2) s)
      (ingestRowsDf o i rows).erros (ingestRowsDf o i rows).falhas := by
  induction rows generalizing i with
  | nil => simp [ingestRowsDf]
  | cons row rest ih =>
    have ihw : List.Forall₂
        (fun m k => i ≤ k ∧ k < i + (row :: rest).length ∧ ∃ s, m = liMsg (k + 2) s)
        (ingestRowsDf o (i + 1) rest).erros (ingestRowsDf o (i + 1) rest).falhas :=
      (ih (i + 1)).imp fun _ _ hm => ⟨by omega, by simp only [List.length_cons]; omega, hm.2.2⟩
    simp only [ingestRowsDf]
    split
    · simpa [combineOutc] using ihw
    next m heq =>
      simp only [combineOutc, List.singleton_append]
      refine List.Forall₂.cons ⟨le_refl i, ?_, processRowDf_failed_shape o i row m heq⟩ ihw
      simp only [List.length_cons]
      omega
    next e heq =>
      simp only [combineOutc, List.singleton_append]
      refine List.Forall₂.cons ⟨le_refl i, ?_, ⟨e, rfl⟩⟩ ihw
      simp only [List.length_cons]
      omega

/-- Decidable equality for `Except`, used to evaluate the embedding on the
concrete fixtures. -/
instance {α β : Type} [DecidableEq α] [DecidableEq β] : DecidableEq (Except α β) :=
  fun a b =>
    match a, b with
    | .ok x, .ok y =>
      if h : x = y then .isTrue (by rw [h]) else .isFalse (fun hc => by cases hc; exact h rfl)
    | .error x, .error y =>
      if h : x = y then .isTrue (by rw [h]) else .isFalse (fun hc => by cases hc; exact h rfl)
    | .ok _, .error _ => .isFalse (fun hc => by cases hc)
    | .error _, .ok _ => .isFalse (fun hc => by cases hc)

/-! ## Concrete fixtures used by witnesses and counterexamples -/

/-- A cell holding a string value. -/
def cellS (s : String) : Cell := { value := some (.str s) }

/-- A concrete oracle set: lookups succeed on the fixture names, the date
collaborator parses the fixture date, inserts succeed, both PDF extractors
fail, the fetcher returns one byte. -/
def oFix : Oracles :=
  { findProjeto := fun s => .ok (if s = "P" then some ⟨1, "P", 0⟩ else none),
    findFuncionario := fun s =>
      .ok (if s = "e@x" then some ⟨2, "Ana", "Silva", "e@x"⟩ else none),
    insert := fun _ => .ok (),
    pdToDatetime := fun v => match v with
      | .str "2024-01-01" => some 19723
      | .int n => some n
      | _ => none,
    fetchBytes := fun _ => some [1],
    primExtract := fun _ => .error "pdfminer failure",
    secPages := fun _ => .error "pypdf failure",
    now := 999 }

/-- The fixture oracles with a repository whose project lookup raises. -/
def oBoom : Oracles :=
  { oFix with findProjeto := fun _ => .error "falha de conexão" }

/-- Fixture worksheet: header in row 1, one complete data row (row 2), one
data row with an empty project name (row 3). -/
def wsFix : Ws :=
  { rows := [
      [cellS "Nome do Projeto", cellS "Email Responsável", cellS "Nome da Tarefa",
       cellS "Data de Fim", cellS "Porcentagem"],
      [cellS "P", cellS "e@x", cellS "T1", cellS "2024-01-01", cellS "50"],
      [cellS "", cellS "e@x", cellS "T2", cellS "2024-01-01", cellS "0"]] }

/-- Fixture worksheet with a blank row: header in row 1, data rows 2 and 4,
row 3 entirely empty. -/
def wsBlank : Ws :=
  { rows := [
      [cellS "Nome do Projeto", cellS "Email Responsável", cellS "Nome da Tarefa",
       cellS "Data de Fim", cellS "Porcentagem"],
      [cellS "P", cellS "e@x", cellS "T1", cellS "2024-01-01", cellS "50"],
      [{}, {}, {}, {}, {}],
      [cellS "P", cellS "e@x", cellS "T4", cellS "2024-01-01", cellS "100"]] }

/-- Fixture worksheet whose first (and only) data row fails validation: the
project-name cell is empty. -/
def wsC5 : Ws :=
  { rows := [
      [cellS "Nome do Projeto", cellS "Email Responsável", cellS "Nome da Tarefa",
       cellS "Data de Fim"],
      [cellS "", cellS "e@x", cellS "T1", cellS "2024-01-01"]] }

/-- Fixture worksheet with exactly one valid data row. -/
def wsOk : Ws :=
  { rows := [
      [cellS "Nome do Projeto", cellS "Email Responsável", cellS "Nome da Tarefa",
       cellS "Data de Fim"],
      [cellS "P", cellS "e@x", cellS "T1", cellS "2024-01-01"]] }

/-! ## The claims -/

/-- C1: Row Ingestor partial-failure contract.  In both row loops
(`ingest_xlsx` over worksheet rows and `_ingest_tasks_df_from_dataframe`
over dataframe rows), an exception raised by the body of one (non-blank)
row is caught and recorded as the row-level entry `Linha r: {e}`, and the
loop's outcome is exactly the outcome of the surrounding rows composed
around that one entry: every remaining row is still processed, its tasks
still inserted. -/
theorem claim_C1_partial_failure :
    (∀ (o : Oracles) (u : Bool) (ws : Ws) (h : Nat) (rs1 : List Nat) (r : Nat)
      (rs2 : List Nat) (e : String), rowNonBlank ws r = true →
      processRowWs o u ws h r = .error e →
      ingestRowsWs o u ws h (rs1 ++ r :: rs2) =
        combineOutc (ingestRowsWs o u ws h rs1)
          (combineOutc ⟨0, [liMsg r e], [r], []⟩ (ingestRowsWs o u ws h rs2))) ∧
    (∀ (o : Oracles) (i : Nat) (rows1 : List DfRow) (row : DfRow)
      (rows2 : List DfRow) (e : String),
      processRowDf o (i + rows1.length) row = .error e →
      ingestRowsDf o i (rows1 ++ row :: rows2) =
        combineOutc (ingestRowsDf o i rows1)
          (combineOutc ⟨0, [liMsg (i + rows1.length + 2) e], [i + rows1.length], []⟩
            (ingestRowsDf o (i + rows1.length + 1) rows2))) := by
  constructor
  · intro o u ws h rs1 r rs2 e hb he
    rw [ingestRowsWs_append]
    congr 1
    simp [ingestRowsWs, hb, he]
  · intro o i rows1 row rows2 e he
    rw [ingestRowsDf_append]
    congr 1
    simp [ingestRowsDf, he]

/-- Witness for C1: with a repository whose project lookup raises, the loop
over rows 2 and 3 of the fixture worksheet converts row 2's exception into a
`Linha 2:` entry and still processes row 3. -/
theorem claim_C1_witness :
    rowNonBlank wsFix 2 = true ∧
      processRowWs oBoom true wsFix 1 2 = .error "falha de conexão" ∧
      ingestRowsWs oBoom true wsFix 1 ([] ++ 2 :: [3]) =
        combineOutc (ingestRowsWs oBoom true wsFix 1 [])
          (combineOutc ⟨0, [liMsg 2 "falha de conexão"], [2], []⟩
            (ingestRowsWs oBoom true wsFix 1 [3])) :=
  ⟨by decide, by decide,
    claim_C1_partial_failure.1 oBoom true wsFix 1 [] 2 [3] "falha de conexão"
      (by decide) (by decide)⟩

/-- C5 (counterexample): the claim says a failing row's reported index is
its 1-based position among the data rows, header excluded — so the first
data row would be reported as row 1.  On the fixture worksheet (header in
row 1, the first and only data row in row 2 missing its project name) the
code reports `Linha 2`, which differs from the `Linha 1` message the claim
requires. -/
theorem claim_C5_counterexample :
    ingestXlsx oFix true wsC5 =
      [("criadas", .nat 0),
       ("erros", .strs [liMsg 2 "'Nome do Projeto' é obrigatório."])] ∧
      headerRowIdx wsC5 = some 1 ∧
      liMsg 2 "'Nome do Projeto' é obrigatório." ≠
        liMsg 1 "'Nome do Projeto' é obrigatório." := by
  refine ⟨by decide, by decide, by decide⟩

/-- C5 (amended): the row index embedded in an error message is the failing
row's absolute 1-based row number in the source worksheet — header row (and
any leading blank rows) included in the numbering, so with the header in row
1 the first data row is reported as row 2; in the legacy dataframe path it
is the row's 0-based dataframe position plus 2.  Stated as: the error list
and the failing-row list of a run correspond pointwise, each message being
`Linha r: ...` for its row `r` (worksheet case), respectively
`Linha (i+2): ...` for its position `i` (dataframe case). -/
theorem claim_C5_amended :
    (∀ (o : Oracles) (u : Bool) (ws : Ws) (h : Nat) (rs : List Nat),
      List.Forall₂
        (fun m rr => rr ∈ rs ∧ rowNonBlank ws rr = true ∧ ∃ s, m = liMsg rr s)
        (ingestRowsWs o u ws h rs).erros (ingestRowsWs o u ws h rs).falhas) ∧
    (∀ (o : Oracles) (rows : List DfRow) (i : Nat),
      List.Forall₂
        (fun m k => i ≤ k ∧ k < i + rows.length ∧ ∃ s, m = liMsg (k + 2) s)
        (ingestRowsDf o i rows).erros (ingestRowsDf o i rows).falhas) :=
  ⟨ingestRowsWs_erros_falhas, ingestRowsDf_erros_falhas⟩

/-- C6 (counterexample): in the legacy dataframe path a blank row (all its
cells `NaN`) is *not* skipped: it produces the row-level error
`'Nome do Projeto' é obrigatório.`, so blank rows do contribute to the
error list, against the claim. -/
theorem claim_C6_counterexample :
    ([("Nome do Projeto", (none : Option PyVal)), ("Email Responsável", none)].all
        fun kv => kv.2.isNone) = true ∧
      ingestTasksDf oFix [[("Nome do Projeto", none), ("Email Responsável", none)]] =
        [("criadas", .nat 0),
         ("erros", .strs [liMsg 2 "'Nome do Projeto' é obrigatório."])] := by
  refine ⟨by decide, by decide⟩

/-- C6 (amended): in the spreadsheet (`ingest_xlsx`) path blank rows are
skipped silently — removing a blank row from the processed row list leaves
the outcome unchanged — and `criadas` plus the number of distinct failed row
indices never exceeds the number of non-blank rows; in the legacy dataframe
path blank rows are *not* skipped (each contributes a row-level error, see
the counterexample) and the same bound holds with the dataset's total row
count. -/
theorem claim_C6_amended :
    (∀ (o : Oracles) (u : Bool) (ws : Ws) (h : Nat) (rs1 : List Nat) (r : Nat)
      (rs2 : List Nat), rowNonBlank ws r = false →
      ingestRowsWs o u ws h (rs1 ++ r :: rs2) = ingestRowsWs o u ws h (rs1 ++ rs2)) ∧
    (∀ (o : Oracles) (u : Bool) (ws : Ws) (h : Nat) (rs : List Nat),
      (ingestRowsWs o u ws h rs).criadas +
          (ingestRowsWs o u ws h rs).falhas.dedup.length ≤
        (rs.filter fun r => rowNonBlank ws r).length) ∧
    (∀ (o : Oracles) (i : Nat) (rows : List DfRow),
      (ingestRowsDf o i rows).criadas +
          (ingestRowsDf o i rows).falhas.dedup.length ≤
        rows.length) := by
  refine ⟨ingestRowsWs_blank_skip, ?_, ?_⟩
  · intro o u ws h rs
    have hc := ingestRowsWs_count o u ws h rs
    have hd := List.Sublist.length_le (List.dedup_sublist (ingestRowsWs o u ws h rs).falhas)
    omega
  · intro o i rows
    have hc := ingestRowsDf_count o i rows
    have hd := List.Sublist.length_le (List.dedup_sublist (ingestRowsDf o i rows).falhas)
    omega

/-- Witness for C6: row 3 of the blank-row fixture worksheet is blank and
dropping it from the processed list leaves the outcome unchanged. -/
theorem claim_C6_witness :
    rowNonBlank wsBlank 3 = false ∧
      ingestRowsWs oFix true wsBlank 1 ([2] ++ 3 :: [4]) =
        ingestRowsWs oFix true wsBlank 1 ([2] ++ [4]) :=
  ⟨by decide, claim_C6_amended.1 oFix true wsBlank 1 [2] 3 [4] (by decide)⟩

/-- C9 (counterexample): the single-dataset ingestion result has no key
named `criados`: the created-count key the code returns is `criadas`. -/
theorem claim_C9_counterexample :
    (ingestXlsx oFix true wsOk).lookup "criados" = none ∧
      (ingestXlsx oFix true wsOk).lookup "criadas" = some (.nat 1) := by
  refine ⟨by decide, by decide⟩

/-- C9 (amended): single-dataset ingestion (both `ingest_xlsx` and
`_ingest_tasks_df_from_dataframe`) always returns a dictionary of exactly
the two keys `criadas` — a non-negative integer — and `erros` — the ordered
list of row-error message strings. -/
theorem claim_C9_amended (o : Oracles) (u : Bool) (ws : Ws) (df : List DfRow) :
    (∃ (n : Nat) (es : List String),
      ingestXlsx o u ws = [("criadas", RVal.nat n), ("erros", RVal.strs es)]) ∧
    (∃ (n : Nat) (es : List String),
      ingestTasksDf o df = [("criadas", RVal.nat n), ("erros", RVal.strs es)]) := by
  constructor
  · unfold ingestXlsx
    split
    · exact ⟨0, _, rfl⟩
    · exact ⟨_, _, rfl⟩
  · exact ⟨_, _, rfl⟩

/-- C3: completion-percentage handling.  For every task created by either
ingestion row body, the stored percentage is the raw cell value clamped into
`[0, 100]` (`clamp01` of `porcPre`, the pre-clamp `int(float(·))` value with
its fallbacks), and the stored status and completion time are derived from
the clamped value: `0` maps to not-started (no completion time set), `100`
to complete with the completion timestamp stamped at that moment, anything
else to in-progress.  The percentage *update* operation (its endpoint is not
in this `src/` snapshot) is modelled from the spec as
`atualizarPorcentagem` and satisfies the same contract, additionally
clearing the completion time on an update to `0`. -/
theorem claim_C3_percentage :
    (∀ (o : Oracles) (u : Bool) (ws : Ws) (h r : Nat) (t : TarefaIng),
      processRowWs o u ws h r = .ok (.created t) →
      0 ≤ t.porcentagem ∧ t.porcentagem ≤ 100 ∧
        t.porcentagem = clamp01 (porcPre (getValWs ws h r ["Porcentagem"])
          (getValWs ws h r ["Concluído", "Concluida"])) ∧
        t.status = (if t.porcentagem = 0 then .naoIniciada
          else if t.porcentagem = 100 then .concluida else .emAndamento) ∧
        t.dataConclusao = (if t.porcentagem = 100 then some o.now else none)) ∧
    (∀ (o : Oracles) (i : Nat) (row : DfRow) (t : TarefaIng),
      processRowDf o i row = .ok (.created t) →
      0 ≤ t.porcentagem ∧ t.porcentagem ≤ 100 ∧
        t.porcentagem = clamp01 (porcPre (dfGet row ["Porcentagem"])
          (dfGet row ["Concluído", "Concluida"])) ∧
        t.status = (if t.porcentagem = 0 then .naoIniciada
          else if t.porcentagem = 100 then .concluida else .emAndamento) ∧
        t.dataConclusao = (if t.porcentagem = 100 then some o.now else none)) ∧
    (∀ (now : Int) (t : TarefaIng) (p : Int),
      0 ≤ (atualizarPorcentagem now t p).porcentagem ∧
        (atualizarPorcentagem now t p).porcentagem ≤ 100 ∧
        (atualizarPorcentagem now t p).porcentagem = clamp01 p ∧
        (atualizarPorcentagem now t p).status =
          (if (atualizarPorcentagem now t p).porcentagem = 0 then .naoIniciada
           else if (atualizarPorcentagem now t p).porcentagem = 100 then .concluida
           else .emAndamento) ∧
        ((atualizarPorcentagem now t p).porcentagem = 100 →
          (atualizarPorcentagem now t p).dataConclusao = some now) ∧
        ((atualizarPorcentagem now t p).porcentagem = 0 →
          (atualizarPorcentagem now t p).dataConclusao = none)) := by
  refine ⟨?_, ?_, ?_⟩
  · intro o u ws h r t ht
    obtain ⟨hp, hs, hd⟩ := processRowWs_created_porc o u ws h r t ht
    refine ⟨hp ▸ (clamp01_bounds _).1, hp ▸ (clamp01_bounds _).2, hp, ?_, ?_⟩
    · rw [hs, statusFromPorc_ite]
    · rw [hd, hs, stamp_statusFromPorc]
  · intro o i row t ht
    obtain ⟨hp, hs, hd⟩ := processRowDf_created_porc o i row t ht
    refine ⟨hp ▸ (clamp01_bounds _).1, hp ▸ (clamp01_bounds _).2, hp, ?_, ?_⟩
    · rw [hs, statusFromPorc_ite]
    · rw [hd, hs, stamp_statusFromPorc]
  · intro now t p
    unfold atualizarPorcentagem
    dsimp only
    refine ⟨(clamp01_bounds p).1, (clamp01_bounds p).2, rfl, ?_, ?_, ?_⟩
    · rw [statusFromPorc_ite]
    · intro h100
      simp only [statusFromPorc, h100]
      norm_num
    · intro h0
      have : ¬ ((0 : Int) = 100) := by norm_num
      simp only [statusFromPorc, h0]
      simp [this]

/-- Fixture worksheet for the C3 witness: one data row with percentage cell
`150`, which must be clamped to `100`. -/
def wsC3 : Ws :=
  { rows := [
      [cellS "Nome do Projeto", cellS "Email Responsável", cellS "Nome da Tarefa",
       cellS "Data de Fim", cellS "Porcentagem"],
      [cellS "P", cellS "e@x", cellS "T1", cellS "2024-01-01", cellS "150"]] }

/-- The task the fixture row produces: percentage clamped to 100, status
complete, completion time stamped with the oracle clock. -/
def tC3 : TarefaIng :=
  { nome := "T1", projeto := ⟨1, "P", 0⟩, responsavel := ⟨2, "Ana", "Silva", "e@x"⟩,
    como_fazer := none, prioridade := none, condicao := .sempre, categoria := none,
    porcentagem := 100, data_inicio := none, data_fim := 19723,
    documento_referencia := none, fase := none, status := .concluida,
    dataConclusao := some 999 }

/-- Witness for C3: the fixture row with raw percentage `150` satisfies the
clamp/status/completion contract. -/
theorem claim_C3_witness :
    0 ≤ tC3.porcentagem ∧ tC3.porcentagem ≤ 100 ∧
      tC3.porcentagem = clamp01 (porcPre (getValWs wsC3 1 2 ["Porcentagem"])
        (getValWs wsC3 1 2 ["Concluído", "Concluida"])) ∧
      tC3.status = (if tC3.porcentagem = 0 then .naoIniciada
        else if tC3.porcentagem = 100 then .concluida else .emAndamento) ∧
      tC3.dataConclusao = (if tC3.porcentagem = 100 then some oFix.now else none) :=
  claim_C3_percentage.1 oFix true wsC3 1 2 tC3 (by decide)

/-- C4 (counterexample): when both extractors fail, the extraction chain
returns the empty string and the downstream `como_fazer` field is *set to
the empty string* — not left unset (`None`) as the claim's last clause
states: the fallback block assigns `(pdf_texto or "").strip()`, i.e. `""`. -/
theorem claim_C4_counterexample :
    comoFazerComPdf oFix true none (some (.str "http://x/a.pdf")) = some "" ∧
      (some "" : Option String) ≠ none := by
  refine ⟨by decide, by decide⟩

/-- C4 (amended): the extraction chain is total and ordered — the primary
extractor's stripped text is returned when non-blank; when the primary
raises or yields only whitespace the secondary's joined, stripped text is
returned; when the secondary also fails the empty string is returned and no
exception escapes (the chain's type is `String`, not `Except`).  When both
produce nothing, the downstream field is set to the *empty string* (no
text), and the row is not failed by the block. -/
theorem claim_C4_amended :
    (∀ (o : Oracles) (b : Bytes) (txt : String),
      o.primExtract b = .ok txt → pyStrip txt ≠ "" →
      extractPdfTextFromBytes o b = pyStrip txt) ∧
    (∀ (o : Oracles) (b : Bytes) (e : String),
      o.primExtract b = .error e → extractPdfTextFromBytes o b = pyPdfText o b) ∧
    (∀ (o : Oracles) (b : Bytes) (txt : String),
      o.primExtract b = .ok txt → pyStrip txt = "" →
      extractPdfTextFromBytes o b = pyPdfText o b) ∧
    (∀ (o : Oracles) (b : Bytes) (e : String),
      o.secPages b = .error e → pyPdfText o b = "") ∧
    (∀ (o : Oracles) (docref : PyVal),
      pyTruthy docref = true →
      strEndsWith (pyLower (pyStr docref)) ".pdf" = true →
      pyStrip (extractPdfTextFromUrl o (pyStr docref)) = "" →
      comoFazerComPdf o true none (some docref) = some "") := by
  refine ⟨?_, ?_, ?_, ?_, ?_⟩
  · intro o b txt hp hs
    have hne : txt ≠ "" := by
      intro he
      rw [he] at hs
      exact hs rfl
    unfold extractPdfTextFromBytes
    rw [hp]
    simp [hne, hs]
  · intro o b e hp
    unfold extractPdfTextFromBytes
    rw [hp]
  · intro o b txt hp hs
    unfold extractPdfTextFromBytes
    rw [hp]
    simp [hs]
  · intro o b e hs
    unfold pyPdfText
    rw [hs]
  · intro o docref htr hpdf hempty
    unfold comoFazerComPdf
    simp only [pyTruthyO, htr, Option.getD_some, hpdf, hempty]
    norm_num

/-- Oracle fixture whose primary (pdfminer) extractor succeeds with padded
text. -/
def oPrim : Oracles :=
  { oFix with primExtract := fun _ => .ok " doc text " }

/-- Witness for C4: the primary extractor's stripped text wins when
non-blank, and with both extractors failing the downstream field becomes
the empty string. -/
theorem claim_C4_witness :
    extractPdfTextFromBytes oPrim [1] = pyStrip " doc text " ∧
      comoFazerComPdf oFix true none (some (.str "http://x/a.pdf")) = some "" :=
  ⟨claim_C4_amended.1 oPrim [1] " doc text " (by decide) (by decide),
   claim_C4_amended.2.2.2.2 oFix (.str "http://x/a.pdf") (by decide) (by decide)
     (by decide)⟩

/-- C8 (counterexample): the Sheets URL rewrite does not retain `gid=<n>` —
everything after `/edit`, the `gid` parameter included, is dropped — and a
share URL without `/edit` is not rewritten at all (no export suffix is
appended). -/
theorem claim_C8_counterexample :
    normalizeSheetsUrl "https://docs.google.com/spreadsheets/d/abc/edit?usp=sharing&gid=7" =
        "https://docs.google.com/spreadsheets/d/abc/export?format=csv" ∧
      containsSub
        (normalizeSheetsUrl "https://docs.google.com/spreadsheets/d/abc/edit?usp=sharing&gid=7")
        "gid=" = false ∧
      normalizeSheetsUrl "https://docs.google.com/spreadsheets/d/abc?gid=7" =
        "https://docs.google.com/spreadsheets/d/abc?gid=7" ∧
      strEndsWith "https://docs.google.com/spreadsheets/d/abc?gid=7"
        "/export?format=csv" = false := by
  refine ⟨by decide, by decide, by decide, by decide⟩

/-- C8 (amended): for a Sheets share URL not already in export form, the
reader rewrites a URL containing `/edit` by replacing everything from
`/edit` on (any `gid` parameter included) with `/export?format=csv`; a URL
without `/edit` is left unchanged. -/
theorem claim_C8_amended (u : String)
    (hm : containsSub u "docs.google.com/spreadsheets" = true)
    (hne : containsSub u "export?format=csv" = false) :
    (containsSub u "/edit" = true →
      normalizeSheetsUrl u = takeBeforeFirst u "/edit" ++ "/export?format=csv") ∧
    (containsSub u "/edit" = false → normalizeSheetsUrl u = u) := by
  unfold normalizeSheetsUrl
  constructor <;> intro h <;> simp [hm, hne, h]

/-- Witness for C8: one URL with `/edit` (rewritten, losing its `gid`), one
without (unchanged). -/
theorem claim_C8_witness :
    normalizeSheetsUrl "https://docs.google.com/spreadsheets/d/abc/edit?gid=7" =
        takeBeforeFirst "https://docs.google.com/spreadsheets/d/abc/edit?gid=7" "/edit" ++
          "/export?format=csv" ∧
      normalizeSheetsUrl "https://docs.google.com/spreadsheets/d/abc?gid=7" =
        "https://docs.google.com/spreadsheets/d/abc?gid=7" :=
  ⟨(claim_C8_amended "https://docs.google.com/spreadsheets/d/abc/edit?gid=7"
      (by decide) (by decide)).1 (by decide),
   (claim_C8_amended "https://docs.google.com/spreadsheets/d/abc?gid=7"
      (by decide) (by decide)).2 (by decide)⟩

/-- C2: the sentence `muda o prazo do projeto Alpha para amanhã` does not
trigger the ingestion patterns, matches the project-deadline pattern —
never reaching the task-deadline pattern, which in fact does not match this
sentence at all — resolves the project by case-insensitive substring match
on `Alpha`, sets its `prazo` to the current date plus one day and returns
`executado = true` with a message naming the resolved project and the new
date. -/
theorem claim_C2_projeto_prazo (today : Int) (db : DB) (p : Projeto)
    (hfind : findProjetoByName db "Alpha" = some p)
    (hsave : db.saveRaises = none) :
    handleCommand today db "muda o prazo do projeto Alpha para amanhã" =
        .ok (some ⟨true, "Prazo do projeto '" ++ p.nome ++ "' atualizado para " ++
            fmtDMY (today + 1) ++ "."⟩,
          { db with projetos := db.projetos.map fun q =>
              if q.id = p.id then { p with prazo := today + 1 } else q }) ∧
      ciContainsSub p.nome "Alpha" = true ∧
      reSearch pat2 "muda o prazo do projeto Alpha para amanhã" = none := by
  refine ⟨?_, ?_, by decide⟩
  · have h0 : stage0 "muda o prazo do projeto Alpha para amanhã" =
        .fallthru "muda o prazo do projeto Alpha para amanhã" := by decide
    have h1 : reSearch pat1 "muda o prazo do projeto Alpha para amanhã" =
        some ("muda o prazo do projeto Alpha para amanhã", ["Alpha", "amanhã"]) := by
      decide
    have h4 : parseRelativeDate today "amanhã" = some (today + 1) := by
      unfold parseRelativeDate
      have hl : pyLower (pyStrip "amanhã") = "amanhã" := by decide
      rw [hl]
      simp
    simp only [handleCommand, h0, h1]
    have hg0 : (["Alpha", "amanhã"].getD 0 "") = "Alpha" := by decide
    have hg1 : (["Alpha", "amanhã"].getD 1 "") = "amanhã" := by decide
    rw [hg0, hg1]
    unfold cmdPrazoProjeto
    have ht1 : pyStrip "Alpha" = "Alpha" := by decide
    have ht2 : pyStrip "amanhã" = "amanhã" := by decide
    rw [ht1, ht2]
    dsimp only
    rw [hfind, h4]
    unfold saveProjeto
    rw [hsave]
  · have hf : db.projetos.find? (fun q => ciContainsSub q.nome "Alpha") = some p := by
      simpa [findProjetoByName] using hfind
    have h2 := List.find?_some hf
    simpa using h2

/-- Concrete database for the C2 witness: one project whose name contains
`Alpha`. -/
def dbC2 : DB := { projetos := [⟨1, "Projeto Alpha", 100⟩] }

/-- Witness for C2: on the concrete database, the command updates the
deadline of `Projeto Alpha` to day 1 (today = day 0) and reports it as
`02/01/1970`. -/
theorem claim_C2_witness :
    handleCommand 0 dbC2 "muda o prazo do projeto Alpha para amanhã" =
        .ok (some ⟨true, "Prazo do projeto 'Projeto Alpha' atualizado para 02/01/1970."⟩,
          { dbC2 with projetos := [⟨1, "Projeto Alpha", 1⟩] }) ∧
      ciContainsSub "Projeto Alpha" "Alpha" = true ∧
      reSearch pat2 "muda o prazo do projeto Alpha para amanhã" = none :=
  claim_C2_projeto_prazo 0 dbC2 ⟨1, "Projeto Alpha", 100⟩ (by decide) rfl

/-- Concrete database whose repository raises on every save. -/
def dbBoom : DB := { projetos := [⟨1, "Alpha", 0⟩], saveRaises := some "falha no banco" }

/-- C7 (counterexample): the claim says that for every input matching a
pattern, an exception during the handler is converted into an
`executado=false` result instead of propagating to `handle_command`'s
caller.  But only the ingestion branch has a `try`/`except`: here the input
matches the project-deadline pattern and the save's exception propagates out
of `handle_command` as-is. -/
theorem claim_C7_counterexample :
    (reSearch pat1 "muda o prazo do projeto alpha para amanhã").isSome = true ∧
      handleCommand 0 dbBoom "muda o prazo do projeto alpha para amanhã" =
        .error "falha no banco" := by
  refine ⟨by decide, by rfl⟩

/-- C7 (amended): exceptions on the command path are converted into
`executado=false` results in two layers — inside the parser for the
ingestion command (the only branch with its own `try`/`except`), and by the
`/ai/chat` endpoint, which wraps the whole parser call and turns any escaped
exception into an `ACOES_FALHOU` response; the exception therefore never
crosses the chat boundary, though it does reach the parser's caller for the
non-ingestion commands (and the Dialogflow webhook performs no such
conversion). -/
theorem claim_C7_amended :
    (∀ (today : Int) (db : DB) (texto u texto2 : String),
      stage0 texto = .url u texto2 →
      ∃ r : CmdResult, handleCommand today db texto = .ok (some r, db)) ∧
    (∀ (today : Int) (db : DB) (texto e : String),
      handleCommand today db texto = .error e →
      processarChatIA today db texto =
        (⟨"ACOES_FALHOU", "Falha ao processar comando: " ++ e⟩, db)) := by
  constructor
  · intro today db texto u texto2 hs
    unfold handleCommand
    rw [hs]
    unfold runIngestCommand
    dsimp only
    split
    · exact ⟨_, rfl⟩
    · exact ⟨_, rfl⟩
  · intro today db texto e he
    unfold processarChatIA
    rw [he]

/-- Witness for C7: the propagated save exception of the counterexample's
run is converted by the chat endpoint into an `ACOES_FALHOU` response. -/
theorem claim_C7_witness :
    processarChatIA 0 dbBoom "muda o prazo do projeto alpha para amanhã" =
      (⟨"ACOES_FALHOU", "Falha ao processar comando: falha no banco"⟩, dbBoom) :=
  claim_C7_amended.2 0 dbBoom "muda o prazo do projeto alpha para amanhã"
    "falha no banco" (by rfl)

/-- C10: frame property of the chat status-change command.  When the router
reaches pattern 5 (`marca a tarefa X como ...`: the ingestion stage fell
through and patterns 1-4 did not match) and the command succeeds, the stored
task is replaced by `{ t with status := st }` — literally the old task with
only `status` reassigned, so `dataConclusao` keeps its prior value even when
the new status is `concluída`.  By contrast the REST update endpoint stamps
`dataConclusao = date.today()` on a status update to `concluída`, and the
ingestion path stamps `utcnow()` on a freshly created completed task. -/
theorem claim_C10_status_frame (today : Int) (db : DB)
    (texto texto2 g0 g1 g2 : String) (t : Tarefa) (st : StatusTarefa)
    (h0 : stage0 texto = .fallthru texto2)
    (h1 : reSearch pat1 texto2 = none)
    (h2 : reSearch pat2 texto2 = none)
    (h3 : reSearch pat3 texto2 = none)
    (h4 : reSearch pat4 texto2 = none)
    (h5 : reSearch pat5 texto2 = some (g0, [g1, g2]))
    (hst : statusOfTxt (normStatusTxt g2) = some st)
    (hfind : findTarefaByName db (pyStrip g1) = some t)
    (hsave : db.saveRaises = none) :
    handleCommand today db texto =
        .ok (some ⟨true, "Tarefa '" ++ t.nome ++ "' marcada como " ++
            normStatusTxt g2 ++ "."⟩,
          { db with tarefas := db.tarefas.map fun q =>
              if q.id = t.id then { t with status := st } else q }) ∧
      ({ t with status := st }).dataConclusao = t.dataConclusao ∧
      ({ t with status := st }).prazo = t.prazo ∧
      ({ t with status := st }).nome = t.nome ∧
      ({ t with status := st }).responsavelId = t.responsavelId ∧
      ({ t with status := st }).concluido = t.concluido ∧
      (∀ (d : Int) (t0 : Tarefa),
        (atualizarTarefaSetStatus d t0 .concluida).dataConclusao = some d) ∧
      (∀ n : Int, stampConclusao n .concluida = some n) := by
  refine ⟨?_, rfl, rfl, rfl, rfl, rfl, ?_, ?_⟩
  · simp only [handleCommand, h0, h1, h2, h3, h4, h5]
    unfold cmdMarcaTarefa
    dsimp only
    simp only [List.getD_cons_zero, List.getD_cons_succ]
    rw [hfind, hst]
    unfold saveTarefa
    rw [hsave]
  · intro d t0
    simp [atualizarTarefaSetStatus]
  · intro n
    simp [stampConclusao]

/-- Concrete task for the C10 witness: in progress, with an (old) completion
date already present. -/
def tC10 : Tarefa :=
  { id := 7, nome := "Relatorio Final", prazo := 60, projetoId := 1,
    responsavelId := 2, dataConclusao := some 33, status := .emAndamento }

/-- Concrete database for the C10 witness. -/
def dbC10 : DB := { tarefas := [tC10] }

/-- Witness for C10: marking `Relatorio Final` as `concluída` through the
chat command flips only its status; its `dataConclusao` stays `some 33`. -/
theorem claim_C10_witness :
    handleCommand 0 dbC10 "marca a tarefa relatorio como concluída" =
        .ok (some ⟨true, "Tarefa 'Relatorio Final' marcada como concluída."⟩,
          { dbC10 with tarefas := dbC10.tarefas.map fun q =>
              if q.id = tC10.id then { tC10 with status := .concluida } else q }) ∧
      ({ tC10 with status := StatusTarefa.concluida }).dataConclusao = some 33 :=
  ⟨(claim_C10_status_frame 0 dbC10 "marca a tarefa relatorio como concluída"
      "marca a tarefa relatorio como concluída"
      "marca a tarefa relatorio como concluída" "relatorio" "concluída" tC10
      .concluida (by decide) (by decide) (by decide) (by decide) (by decide)
      (by decide) (by decide) (by decide) rfl).1,
    (claim_C10_status_frame 0 dbC10 "marca a tarefa relatorio como concluída"
      "marca a tarefa relatorio como concluída"
      "marca a tarefa relatorio como concluída" "relatorio" "concluída" tC10
      .concluida (by decide) (by decide) (by decide) (by decide) (by decide)
      (by decide) (by decide) (by decide) rfl).2.1⟩

end AcheFlow
